import Mathlib

/-!
Verification of the Solace trace-message unmarshaller (receiver/solacereceiver).
The repository's sources stage only the unmarshaller's test file
(`src/receiver/solacereceiver/unmarshaller_test.go`); the implementation
(`unmarshaller.go`) is absent, so every definition below is modelled from the
natural-language specification, with the concrete details (attribute keys,
enum words, error counts) pinned by the staged tests.  Bytes are `Nat`s,
byte strings are `List Nat`, 64-bit floating point attribute values are
carried as their IEEE-754 bit patterns (`Nat`), fallible operations return
`Except`, and the recoverable-error counter is modelled by each mapping
function returning the number of increments it performs.
-/

/-- Modelled from the spec: a single lowercase hex digit, as produced by Go's
`hex.EncodeToString` / `fmt.Sprintf("%x", ...)` used by the missing
`unmarshaller.go`. -/
def hexDigit (n : Nat) : Char :=
  if n < 10 then Char.ofNat (48 + n) else Char.ofNat (87 + n)

/-- Modelled from the spec: the two lowercase hex digits of one byte. -/
def byteHexChars (b : Nat) : List Char :=
  [hexDigit (b / 16 % 16), hexDigit (b % 16)]

/-- Modelled from the spec: the lowercase hex dump of a byte string, as a
character list. -/
def hexChars : List Nat → List Char
  | [] => []
  | b :: bs => byteHexChars b ++ hexChars bs

/-- Modelled from the spec: the lowercase hex dump of a byte string
(`hex.EncodeToString` in the missing `unmarshaller.go`). -/
def hexStr (bs : List Nat) : String :=
  String.mk (hexChars bs)

/-- Modelled from the spec: `n` printed as exactly `w` lowercase hex digits,
zero padded (Go's `fmt.Sprintf("%08x", ...)` for `w = 8`). -/
def natHexPad (n w : Nat) : String :=
  String.mk ((List.range w).map fun i => hexDigit (n / 16 ^ (w - 1 - i) % 16))

/-- Modelled from the spec: a 16-bit group printed in lowercase hex with no
leading zeros, the group form used inside an IPv6 address. -/
def natHexShort (n : Nat) : String :=
  let cs := (natHexPad n 4).toList.dropWhile (fun c => c = '0')
  if cs.isEmpty then "0" else String.mk cs

/-- Modelled from the spec: IPv4 dotted-decimal text of a 4-byte address. -/
def ipv4ToString (bs : List Nat) : String :=
  String.intercalate "." (bs.map (fun b => toString b))

/-- Modelled from the spec: the eight 16-bit groups of a 16-byte IPv6
address. -/
def ipv6Groups (bs : List Nat) : List Nat :=
  (List.range 8).map (fun i => bs.getD (2 * i) 0 * 256 + bs.getD (2 * i + 1) 0)

/-- Length of the run of zero groups starting at index `i`. -/
def zeroRunAt (gs : List Nat) (i : Nat) : Nat :=
  ((gs.drop i).takeWhile (fun g => g = 0)).length

/-- Modelled from the spec: the earliest longest run of at least two zero
groups, the run an IPv6 renderer compresses to `::`. -/
def bestZeroRun (gs : List Nat) : Option (Nat × Nat) :=
  (List.range gs.length).foldl
    (fun acc i =>
      let len := zeroRunAt gs i
      match acc with
      | none => if 2 ≤ len then some (i, len) else none
      | some (s, bl) => if bl < len then some (i, len) else some (s, bl))
    none

/-- Modelled from the spec: zero-run-compressed colon-hex text of a 16-byte
IPv6 address. -/
def ipv6ToString (bs : List Nat) : String :=
  let gs := ipv6Groups bs
  match bestZeroRun gs with
  | none => String.intercalate ":" (gs.map natHexShort)
  | some (s, l) =>
      String.intercalate ":" ((gs.take s).map natHexShort) ++ "::" ++
        String.intercalate ":" ((gs.drop (s + l)).map natHexShort)

/-- Modelled from the spec: conversion of an IEEE-754 binary32 bit pattern to
the binary64 bit pattern of the same value (the exact widening Go performs in
`float64(someFloat32)`); covers normals, subnormals, zeros, infinities and
NaNs. -/
def f32ToF64Bits (b : Nat) : Nat :=
  let sign := b / 2 ^ 31 % 2
  let exp := b / 2 ^ 23 % 2 ^ 8
  let frac := b % 2 ^ 23
  if exp = 255 then
    sign * 2 ^ 63 + 2047 * 2 ^ 52 + frac * 2 ^ 29
  else if exp = 0 then
    if frac = 0 then
      sign * 2 ^ 63
    else
      let L := Nat.log2 frac
      sign * 2 ^ 63 + (L + 874) * 2 ^ 52 + (frac * 2 ^ (52 - L) - 2 ^ 52)
  else
    sign * 2 ^ 63 + (exp + 896) * 2 ^ 52 + frac * 2 ^ 29

/-- Modelled from the spec: reinterpretation of an unsigned 64-bit value as a
signed 64-bit value (the lossy `int64(u)` normalization of §9). -/
def uint64ToInt64 (n : Nat) : Int :=
  if n < 2 ^ 63 then (n : Int) else (n : Int) - 2 ^ 64

/-- Validity of a Unicode scalar value, exactly `Char`'s range. -/
def isUnicodeScalar (n : Nat) : Bool :=
  n < 0xD800 || (0xE000 ≤ n && n < 0x110000)

/-- Modelled from the spec: Go's `string(rune(n))` rendering of a code point —
the UTF-8 string of the character when `n` is a valid Unicode scalar value,
and the single replacement character U+FFFD otherwise, as pinned by the
staged tests' `CharacterValue` cases. -/
def runeToString (n : Nat) : String :=
  if isUnicodeScalar n then String.singleton (Char.ofNat n)
  else String.singleton (Char.ofNat 0xFFFD)

/-- An output attribute value (the shapes `pcommon.Value` takes here). A
`double` carries its IEEE-754 binary64 bit pattern. -/
inductive AttrValue where
  | empty : AttrValue
  | bool (b : Bool) : AttrValue
  | int (i : Int) : AttrValue
  | double (bits : Nat) : AttrValue
  | bytes (bs : List Nat) : AttrValue
  | str (s : String) : AttrValue
deriving DecidableEq, Repr

/-- An ordered attribute map (keys are never inserted twice). -/
abbrev AttrMap := List (String × AttrValue)

/-- An output span event: name, timestamp, attributes. -/
structure SpanEvent where
  name : String
  timeUnixNano : Nat
  attributes : AttrMap
deriving DecidableEq, Repr

/-- An output span status: unset, or error with a message. -/
inductive SpanStatus where
  | unset : SpanStatus
  | error (message : String) : SpanStatus
deriving DecidableEq, Repr

/-- The numeric span kind `consumer` (`ptrace.SpanKindConsumer`). -/
def spanKindConsumer : Nat := 5

/-- The output span envelope. -/
structure Span where
  traceId : List Nat
  spanId : List Nat
  parentSpanId : Option (List Nat)
  startTimeUnixNano : Nat
  endTimeUnixNano : Nat
  kind : Nat
  name : String
  traceState : Option String
  status : SpanStatus
  attributes : AttrMap
  events : List SpanEvent
deriving DecidableEq, Repr

/-- The produced trace data: one resource, one scope, one span. -/
structure Traces where
  resourceAttributes : AttrMap
  span : Span
deriving DecidableEq, Repr

/-- The destination variant of an enqueue sub-event (proto oneof). -/
inductive EnqueueDest where
  | queueName (s : String) : EnqueueDest
  | topicEndpointName (s : String) : EnqueueDest
deriving DecidableEq, Repr

/-- A wire-record enqueue sub-event. -/
structure EnqueueEvent where
  dest : Option EnqueueDest
  timeUnixNano : Nat
  errorDescription : Option String
  rejectsAllEnqueues : Bool
deriving DecidableEq, Repr

/-- A local transaction identifier. -/
structure LocalTransactionId where
  transactionId : Nat
  sessionId : Nat
  sessionName : String
deriving DecidableEq, Repr

/-- A global (XA) transaction identifier. -/
structure Xid where
  formatId : Nat
  branchQualifier : Option (List Nat)
  globalId : Option (List Nat)
deriving DecidableEq, Repr

/-- The transaction identifier union: local or global (XA). -/
inductive TransactionId where
  | localId (l : LocalTransactionId) : TransactionId
  | xid (x : Xid) : TransactionId
deriving DecidableEq, Repr

/-- A wire-record transaction sub-event; `txnType` (the proto `Type` field)
and `initiator` carry the raw enum numerals. -/
structure TransactionEvent where
  timeUnixNano : Nat
  txnType : Nat
  initiator : Nat
  transactionId : Option TransactionId
  errorDescription : Option String
deriving DecidableEq, Repr

/-- The user-property tagged union (`SpanData_UserPropertyValue`). The
`unsupported` constructor stands for a dynamic value of any variant this
decoder does not recognize. -/
inductive UserPropertyValue where
  | nullValue : UserPropertyValue
  | boolValue (b : Bool) : UserPropertyValue
  | doubleValue (bits : Nat) : UserPropertyValue
  | floatValue (bits : Nat) : UserPropertyValue
  | int8Value (i : Int) : UserPropertyValue
  | int16Value (i : Int) : UserPropertyValue
  | int32Value (i : Int) : UserPropertyValue
  | int64Value (i : Int) : UserPropertyValue
  | uint8Value (n : Nat) : UserPropertyValue
  | uint16Value (n : Nat) : UserPropertyValue
  | uint32Value (n : Nat) : UserPropertyValue
  | uint64Value (n : Nat) : UserPropertyValue
  | byteArrayValue (bs : List Nat) : UserPropertyValue
  | stringValue (s : String) : UserPropertyValue
  | destinationValue (s : String) : UserPropertyValue
  | characterValue (c : Nat) : UserPropertyValue
  | unsupported : UserPropertyValue
deriving DecidableEq, Repr

/-- The decoded wire record (`model_v1.SpanData`). Optional proto fields are
`Option`s; proto3 plain-`string`/`bytes` fields where the code treats
emptiness as absence (`errorDescription`, `parentSpanId`) keep their plain
representation.  A user-property map entry whose value is `none` models a
`nil` map value (no valid union at all). -/
structure SpanData where
  traceId : List Nat
  spanId : List Nat
  parentSpanId : List Nat
  startTimeUnixNano : Nat
  endTimeUnixNano : Nat
  traceState : Option String
  errorDescription : String
  routerName : String
  messageVpnName : Option String
  solosVersion : String
  protocol : String
  protocolVersion : Option String
  applicationMessageId : Option String
  correlationId : Option String
  deliveryMode : Nat
  binaryAttachmentSize : Nat
  xmlAttachmentSize : Nat
  metadataSize : Nat
  clientUsername : String
  clientName : String
  topic : String
  replyToTopic : Option String
  replicationGroupMessageId : List Nat
  priority : Option Nat
  ttl : Option Int
  dmqEligible : Bool
  droppedEnqueueEventsSuccess : Nat
  droppedEnqueueEventsFailed : Nat
  hostIp : List Nat
  hostPort : Nat
  peerIp : List Nat
  peerPort : Nat
  brokerReceiveTimeUnixNano : Nat
  droppedApplicationMessageProperties : Bool
  userProperties : List (String × Option UserPropertyValue)
  enqueueEvents : List EnqueueEvent
  transactionEvent : Option TransactionEvent
deriving DecidableEq, Repr

/-- A wire record with every field absent, zero or empty. -/
def emptySpanData : SpanData :=
  { traceId := [], spanId := [], parentSpanId := [],
    startTimeUnixNano := 0, endTimeUnixNano := 0,
    traceState := none, errorDescription := "",
    routerName := "", messageVpnName := none, solosVersion := "",
    protocol := "", protocolVersion := none,
    applicationMessageId := none, correlationId := none,
    deliveryMode := 0, binaryAttachmentSize := 0, xmlAttachmentSize := 0,
    metadataSize := 0, clientUsername := "", clientName := "", topic := "",
    replyToTopic := none, replicationGroupMessageId := [],
    priority := none, ttl := none, dmqEligible := false,
    droppedEnqueueEventsSuccess := 0, droppedEnqueueEventsFailed := 0,
    hostIp := [], hostPort := 0, peerIp := [], peerPort := 0,
    brokerReceiveTimeUnixNano := 0,
    droppedApplicationMessageProperties := false,
    userProperties := [], enqueueEvents := [], transactionEvent := none }

/-- Modelled from the spec: the RGMID fingerprint encoder `rgmidToString` of
the missing `unmarshaller.go`.  Valid input is exactly 17 bytes with version
byte 1: the output is `rmid1:` plus the 32 hex digits of bytes 1..16 sliced
`[0:5]`, `[5:16]`, `[16:24]`, `[24:32]` and joined with dashes.  Any other
non-empty input falls back to the plain hex dump with one recoverable-error
increment; empty input yields the empty string with no increment.  The second
component is the number of recoverable-error increments. -/
def rgmidToString (rgmid : List Nat) : String × Nat :=
  if rgmid.length = 17 ∧ rgmid.headD 0 = 1 then
    let h := hexChars (rgmid.drop 1)
    ("rmid1:" ++ String.mk (h.take 5) ++ "-" ++ String.mk ((h.drop 5).take 11) ++
       "-" ++ String.mk (((h.drop 5).drop 11).take 8) ++
       "-" ++ String.mk (((h.drop 5).drop 11).drop 8), 0)
  else if 0 < rgmid.length then (hexStr rgmid, 1)
  else ("", 0)

/-- Modelled from the spec: the fixed delivery-mode lookup table
(`PERSISTENT = 0`, `NON_PERSISTENT = 1`, `DIRECT = 2`), with the literal
`"Unknown Delivery Mode (N)"` fallback and one recoverable-error increment
for a value outside the known set. -/
def deliveryModeToString (n : Nat) : String × Nat :=
  match n with
  | 0 => ("persistent", 0)
  | 1 => ("non_persistent", 0)
  | 2 => ("direct", 0)
  | _ => ("Unknown Delivery Mode (" ++ toString n ++ ")", 1)

/-- Modelled from the spec: the fixed transaction-type lookup table
(`COMMIT = 0`, `ROLLBACK = 1`, `END = 2`, `PREPARE = 3`,
`SESSION_TIMEOUT = 4`, `ROLLBACK_ONLY = 5`), with the literal
`"Unknown Transaction Event (N)"` fallback and one increment. -/
def transactionTypeToString (n : Nat) : String × Nat :=
  match n with
  | 0 => ("commit", 0)
  | 1 => ("rollback", 0)
  | 2 => ("end", 0)
  | 3 => ("prepare", 0)
  | 4 => ("session_timeout", 0)
  | 5 => ("rollback_only", 0)
  | _ => ("Unknown Transaction Event (" ++ toString n ++ ")", 1)

/-- Modelled from the spec: the fixed transaction-initiator lookup table
(`CLIENT = 0`, `ADMIN = 1`, `BROKER = 2`), with the literal
`"Unknown Transaction Initiator (N)"` fallback and one increment. -/
def initiatorToString (n : Nat) : String × Nat :=
  match n with
  | 0 => ("client", 0)
  | 1 => ("administrator", 0)
  | 2 => ("broker", 0)
  | _ => ("Unknown Transaction Initiator (" ++ toString n ++ ")", 1)

/-- Modelled from the spec: the XID textual encoding — the format id as 8
zero-padded hex digits, a dash, the branch-qualifier bytes in hex, a dash,
and the global-id bytes in hex; an absent byte field yields an empty hex
segment. -/
def xidToString (x : Xid) : String :=
  natHexPad x.formatId 8 ++ "-" ++ hexStr (x.branchQualifier.getD []) ++
    "-" ++ hexStr (x.globalId.getD [])

/-- Modelled from the spec: `insertUserProperty` of the missing
`unmarshaller.go` — dispatch of one user property's tagged value to an
attribute under `messaging.solace.user_properties.<name>`.  Returns the
attribute entries written (none for an unsupported variant) and the number
of recoverable-error increments. -/
def insertUserProperty (key : String) (v : UserPropertyValue) : AttrMap × Nat :=
  let k := "messaging.solace.user_properties." ++ key
  match v with
  | .nullValue => ([(k, .empty)], 0)
  | .boolValue b => ([(k, .bool b)], 0)
  | .doubleValue bits => ([(k, .double bits)], 0)
  | .floatValue bits => ([(k, .double (f32ToF64Bits bits))], 0)
  | .int8Value i => ([(k, .int i)], 0)
  | .int16Value i => ([(k, .int i)], 0)
  | .int32Value i => ([(k, .int i)], 0)
  | .int64Value i => ([(k, .int i)], 0)
  | .uint8Value n => ([(k, .int n)], 0)
  | .uint16Value n => ([(k, .int n)], 0)
  | .uint32Value n => ([(k, .int n)], 0)
  | .uint64Value n => ([(k, .int (uint64ToInt64 n))], 0)
  | .byteArrayValue bs => ([(k, .bytes bs)], 0)
  | .stringValue s => ([(k, .str s)], 0)
  | .destinationValue s => ([(k, .str s)], 0)
  | .characterValue c => ([(k, .str (runeToString c))], 0)
  | .unsupported => ([], 1)

/-- Modelled from the spec: iteration over the user-property map.  A `nil`
map value (no union at all) is skipped with no attribute and no error
increment, as pinned by the staged tests ("With Some Invalid Fields" expects
exactly 3 errors while holding a nil `special_key`). -/
def mapUserProperties : List (String × Option UserPropertyValue) → AttrMap × Nat
  | [] => ([], 0)
  | (_, none) :: rest => mapUserProperties rest
  | (k, some v) :: rest =>
      ((insertUserProperty k v).1 ++ (mapUserProperties rest).1,
       (insertUserProperty k v).2 + (mapUserProperties rest).2)

/-- Modelled from the spec: a network-address attribute — present with the
IPv4 dotted form at raw length 4, present with the compressed IPv6 form at
raw length 16, and for any other length (including zero/absent) omitted with
one recoverable-error increment. -/
def ipAttr (k : String) (bs : List Nat) : AttrMap × Nat :=
  if bs.length = 4 then ([(k, .str (ipv4ToString bs))], 0)
  else if bs.length = 16 then ([(k, .str (ipv6ToString bs))], 0)
  else ([], 1)

/-- Modelled from the spec: the fingerprint attribute — present with the
encoder's output unless that output is the empty string (nil/absent
fingerprint). -/
def rgmidAttrs (bs : List Nat) : AttrMap :=
  if (rgmidToString bs).1 = "" then []
  else [("messaging.solace.replication_group_message_id", .str (rgmidToString bs).1)]

/-- An attribute entry for an optional string field: present only when the
field is. -/
def optStrAttr (k : String) (v : Option String) : AttrMap :=
  match v with
  | some s => [(k, .str s)]
  | none => []

/-- An attribute entry for an optional integer field. -/
def optIntAttr (k : String) (v : Option Int) : AttrMap :=
  match v with
  | some i => [(k, .int i)]
  | none => []

/-- Modelled from the spec: `mapResourceSpanAttributes` — broker identity to
resource attributes; `service.name` and `service.version` always set (even
when empty), `service.instance.id` only when the VPN name is present.  No
error conditions. -/
def mapResourceSpanAttributes (sd : SpanData) : AttrMap :=
  [("service.name", .str sd.routerName),
   ("service.version", .str sd.solosVersion)] ++
    optStrAttr "service.instance.id" sd.messageVpnName

/-- Modelled from the spec: `mapClientSpanData` — the span envelope: ids,
timestamps, fixed kind and name, optional parent span id and trace state,
and the status derived from the error-description field (present means
non-empty for this proto3 string field). -/
def mapClientSpanData (sd : SpanData) : Span :=
  { traceId := sd.traceId
    spanId := sd.spanId
    parentSpanId := if sd.parentSpanId.isEmpty then none else some sd.parentSpanId
    startTimeUnixNano := sd.startTimeUnixNano
    endTimeUnixNano := sd.endTimeUnixNano
    kind := spanKindConsumer
    name := "(topic) receive"
    traceState := sd.traceState
    status := if sd.errorDescription = "" then .unset else .error sd.errorDescription
    attributes := []
    events := [] }

/-- Modelled from the spec: `mapClientSpanAttributes` — the ~20 field
mappings under the fixed key vocabulary, with the recoverable-error
increments of the delivery-mode lookup, the fingerprint encoder, the two
network addresses and the user properties. -/
def mapClientSpanAttributes (sd : SpanData) : AttrMap × Nat :=
  let dm := (deliveryModeToString sd.deliveryMode).1
  ([("messaging.system", .str "SolacePubSub+"),
    ("messaging.operation", .str "receive"),
    ("messaging.protocol", .str sd.protocol)] ++
    optStrAttr "messaging.protocol_version" sd.protocolVersion ++
    optStrAttr "messaging.message_id" sd.applicationMessageId ++
    optStrAttr "messaging.conversation_id" sd.correlationId ++
    [("messaging.message_payload_size_bytes",
       .int ((sd.binaryAttachmentSize + sd.xmlAttachmentSize + sd.metadataSize : Nat) : Int)),
     ("messaging.destination", .str sd.topic),
     ("messaging.solace.client_username", .str sd.clientUsername),
     ("messaging.solace.client_name", .str sd.clientName)] ++
    rgmidAttrs sd.replicationGroupMessageId ++
    optIntAttr "messaging.solace.priority" (sd.priority.map (fun p => (p : Int))) ++
    optIntAttr "messaging.solace.ttl" sd.ttl ++
    [("messaging.solace.dmq_eligible", .bool sd.dmqEligible),
     ("messaging.solace.dropped_enqueue_events_success", .int sd.droppedEnqueueEventsSuccess),
     ("messaging.solace.dropped_enqueue_events_failed", .int sd.droppedEnqueueEventsFailed)] ++
    optStrAttr "messaging.solace.reply_to_topic" sd.replyToTopic ++
    [("messaging.solace.delivery_mode", .str dm)] ++
    (ipAttr "net.host.ip" sd.hostIp).1 ++
    [("net.host.port", .int sd.hostPort)] ++
    (ipAttr "net.peer.ip" sd.peerIp).1 ++
    [("net.peer.port", .int sd.peerPort),
     ("messaging.solace.broker_receive_time_unix_nano", .int sd.brokerReceiveTimeUnixNano),
     ("messaging.solace.dropped_application_message_properties", .bool sd.droppedApplicationMessageProperties)] ++
    (mapUserProperties sd.userProperties).1,
   (deliveryModeToString sd.deliveryMode).2 + (rgmidToString sd.replicationGroupMessageId).2 +
     (ipAttr "net.host.ip" sd.hostIp).2 + (ipAttr "net.peer.ip" sd.peerIp).2 +
     (mapUserProperties sd.userProperties).2)

/-- Modelled from the spec: one enqueue sub-event — an event named
`"<destination> enqueue"` with destination type, rejects-all-enqueues and
optional error-message attributes when a destination variant is set; no
event and one recoverable-error increment when none is. -/
def mapEnqueueEvent (e : EnqueueEvent) : Option SpanEvent × Nat :=
  match e.dest with
  | none => (none, 1)
  | some d =>
      let p := match d with
        | .queueName q => (q, "queue")
        | .topicEndpointName tn => (tn, "topic-endpoint")
      (some { name := p.1 ++ " enqueue"
              timeUnixNano := e.timeUnixNano
              attributes :=
                [("messaging.solace.destination_type", .str p.2),
                 ("messaging.solace.rejects_all_enqueues", .bool e.rejectsAllEnqueues)] ++
                  optStrAttr "messaging.solace.enqueue_error_message" e.errorDescription },
       0)

/-- Modelled from the spec: folding all enqueue sub-events, collecting the
produced events and summing the error increments. -/
def mapEnqueueEvents : List EnqueueEvent → List SpanEvent × Nat
  | [] => ([], 0)
  | e :: rest =>
      match (mapEnqueueEvent e).1 with
      | some ev => (ev :: (mapEnqueueEvents rest).1,
                    (mapEnqueueEvent e).2 + (mapEnqueueEvents rest).2)
      | none => ((mapEnqueueEvents rest).1,
                 (mapEnqueueEvent e).2 + (mapEnqueueEvents rest).2)

/-- Modelled from the spec: the transaction-identifier attributes — three
attributes for a local identifier, one XID string attribute for a global
(XA) identifier, and none plus one recoverable-error increment when the
identifier is absent entirely. -/
def transactionIdAttrs (tid : Option TransactionId) : AttrMap × Nat :=
  match tid with
    | some (.localId l) =>
        ([("messaging.solace.transaction_id", .int l.transactionId),
          ("messaging.solace.transacted_session_name", .str l.sessionName),
          ("messaging.solace.transacted_session_id", .int l.sessionId)], 0)
    | some (.xid x) =>
        ([("messaging.solace.transaction_xid", .str (xidToString x))], 0)
    | none => ([], 1)

/-- Modelled from the spec: the transaction sub-event assembly — an event
always produced, named by the transaction-type lookup, with the initiator
attribute, the identifier attributes of `transactionIdAttrs` and an optional
error-message attribute; the error increments of the type lookup, the
initiator lookup and the missing identifier add up. -/
def mapTransactionEvent (te : TransactionEvent) : SpanEvent × Nat :=
  ({ name := (transactionTypeToString te.txnType).1
     timeUnixNano := te.timeUnixNano
     attributes :=
       [("messaging.solace.transaction_initiator", .str (initiatorToString te.initiator).1)] ++
         (transactionIdAttrs te.transactionId).1 ++
         optStrAttr "messaging.solace.transaction_error_message" te.errorDescription },
   (transactionTypeToString te.txnType).2 + (initiatorToString te.initiator).2 +
     (transactionIdAttrs te.transactionId).2)

/-- Modelled from the spec: `mapEvents` — all enqueue sub-events followed by
the at-most-one transaction sub-event, with the summed error increments. -/
def mapEvents (sd : SpanData) : List SpanEvent × Nat :=
  match sd.transactionEvent with
  | none => mapEnqueueEvents sd.enqueueEvents
  | some te =>
      ((mapEnqueueEvents sd.enqueueEvents).1 ++ [(mapTransactionEvent te).1],
       (mapEnqueueEvents sd.enqueueEvents).2 + (mapTransactionEvent te).2)

/-- Modelled from the spec: the full record-to-trace mapping — one resource,
one scope, one span carrying the mapped attributes and events. -/
def mapTraces (sd : SpanData) : Traces :=
  { resourceAttributes := mapResourceSpanAttributes sd
    span := { mapClientSpanData sd with
                attributes := (mapClientSpanAttributes sd).1
                events := (mapEvents sd).1 } }

/-- The routing metadata of an inbound message (`amqp.MessageProperties`);
`toAddr` is the destination-path string (the `To` field). -/
structure MessageProperties where
  toAddr : Option String
deriving DecidableEq, Repr

/-- One inbound message: optional routing metadata plus a binary body of
zero or more byte chunks. -/
structure InboundMessage where
  properties : Option MessageProperties
  data : List (List Nat)
deriving DecidableEq, Repr

/-- The typed fatal errors of the unmarshal entry point. -/
inductive FatalError where
  | unknownTraceMessageType : FatalError
  | unknownTraceMessageVersion : FatalError
  | emptyPayload : FatalError
  | decodeFailure (parseError : String) : FatalError
deriving DecidableEq, Repr

/-- The fixed telemetry destination-path base. -/
def telemetryTopicBase : String := "_telemetry/broker/trace/receive"

/-- The one recognized versioned destination path. -/
def telemetryTopicV1 : String := "_telemetry/broker/trace/receive/v1"

/-- Modelled from the spec: the router's fixed-base test on the destination
path (Go's `strings.HasPrefix`), as a character-list comparison. -/
def hasTelemetryBase (t : String) : Bool :=
  telemetryTopicBase.toList.isPrefixOf t.toList

/-- Modelled from the spec: the unmarshal entry point.  The version router
demands routing metadata with a destination path: a missing one or a path
off the fixed base is `unknownTraceMessageType`; a path on the base with an
unrecognized version suffix is `unknownTraceMessageVersion`.  The v1 decoder
then rejects a body with zero bytes total across all chunks as
`emptyPayload`, wraps a binary parse failure in `decodeFailure`, and maps a
decoded record to traces.  The binary schema itself is not part of the
staged sources, so the byte-level parser is a parameter `decode`. -/
def unmarshal (decode : List Nat → Except String SpanData)
    (msg : InboundMessage) : Except FatalError Traces :=
  match msg.properties with
  | none => .error .unknownTraceMessageType
  | some props =>
      match props.toAddr with
      | none => .error .unknownTraceMessageType
      | some topic =>
          if topic = telemetryTopicV1 then
            let body := msg.data.flatten
            if body.isEmpty then .error .emptyPayload
            else
              match decode body with
              | .error e => .error (.decodeFailure e)
              | .ok sd => .ok (mapTraces sd)
          else if hasTelemetryBase topic then
            .error .unknownTraceMessageVersion
          else .error .unknownTraceMessageType

/-! Helper lemmas shared by the claim theorems. -/

lemma hexChars_length (bs : List Nat) : (hexChars bs).length = 2 * bs.length := by
  induction bs with
  | nil => rfl
  | cons b bs ih => simp [hexChars, byteHexChars, ih]; omega

lemma userPropKey_ne (k key : String) (h : key.length < 33) :
    ("messaging.solace.user_properties." ++ k) ≠ key := by
  intro he
  have hl : ("messaging.solace.user_properties." ++ k).length = key.length := by rw [he]
  rw [String.length_append] at hl
  have h33 : ("messaging.solace.user_properties." : String).length = 33 := by decide
  omega

lemma mapUserProperties_keys (ps : List (String × Option UserPropertyValue)) (key : String)
    (h : key.length < 33) : key ∉ (mapUserProperties ps).1.map Prod.fst := by
  induction ps with
  | nil => simp [mapUserProperties]
  | cons p rest ih =>
      obtain ⟨k, v⟩ := p
      cases v with
      | none => simpa [mapUserProperties] using ih
      | some v =>
          cases v <;>
            simp_all [mapUserProperties, insertUserProperty,
              Ne.symm (userPropKey_ne k key h)]

lemma keys_optStrAttr (k key : String) (v : Option String) (h : key ≠ k) :
    key ∉ (optStrAttr k v).map Prod.fst := by
  cases v <;> simp [optStrAttr, h]

lemma keys_optIntAttr (k key : String) (v : Option Int) (h : key ≠ k) :
    key ∉ (optIntAttr k v).map Prod.fst := by
  cases v <;> simp [optIntAttr, h]

lemma keys_ipAttr_ne (k key : String) (bs : List Nat) (h : key ≠ k) :
    key ∉ (ipAttr k bs).1.map Prod.fst := by
  unfold ipAttr
  split <;> [skip; split] <;> simp [h]

lemma ipAttr_invalid (k : String) (bs : List Nat)
    (h4 : bs.length ≠ 4) (h16 : bs.length ≠ 16) : ipAttr k bs = ([], 1) := by
  simp [ipAttr, h4, h16]

lemma keys_rgmidAttrs (key : String) (bs : List Nat)
    (h : key ≠ "messaging.solace.replication_group_message_id") :
    key ∉ (rgmidAttrs bs).map Prod.fst := by
  unfold rgmidAttrs
  split <;> simp [h]

/-- The recoverable-error count of the attribute mapper, decomposed into its
five independent sources. -/
lemma mapClientSpanAttributes_errs (sd : SpanData) :
    (mapClientSpanAttributes sd).2 =
      (deliveryModeToString sd.deliveryMode).2 +
        (rgmidToString sd.replicationGroupMessageId).2 +
        (ipAttr "net.host.ip" sd.hostIp).2 + (ipAttr "net.peer.ip" sd.peerIp).2 +
        (mapUserProperties sd.userProperties).2 := rfl

/-- The attribute list of the attribute mapper as the concatenation of its
segments. -/
lemma mapClientSpanAttributes_fst (sd : SpanData) :
    (mapClientSpanAttributes sd).1 =
      [("messaging.system", .str "SolacePubSub+"),
       ("messaging.operation", .str "receive"),
       ("messaging.protocol", .str sd.protocol)] ++
        optStrAttr "messaging.protocol_version" sd.protocolVersion ++
        optStrAttr "messaging.message_id" sd.applicationMessageId ++
        optStrAttr "messaging.conversation_id" sd.correlationId ++
        [("messaging.message_payload_size_bytes",
           .int ((sd.binaryAttachmentSize + sd.xmlAttachmentSize + sd.metadataSize : Nat) : Int)),
         ("messaging.destination", .str sd.topic),
         ("messaging.solace.client_username", .str sd.clientUsername),
         ("messaging.solace.client_name", .str sd.clientName)] ++
        rgmidAttrs sd.replicationGroupMessageId ++
        optIntAttr "messaging.solace.priority" (sd.priority.map (fun p => (p : Int))) ++
        optIntAttr "messaging.solace.ttl" sd.ttl ++
        [("messaging.solace.dmq_eligible", .bool sd.dmqEligible),
         ("messaging.solace.dropped_enqueue_events_success", .int sd.droppedEnqueueEventsSuccess),
         ("messaging.solace.dropped_enqueue_events_failed", .int sd.droppedEnqueueEventsFailed)] ++
        optStrAttr "messaging.solace.reply_to_topic" sd.replyToTopic ++
        [("messaging.solace.delivery_mode", .str (deliveryModeToString sd.deliveryMode).1)] ++
        (ipAttr "net.host.ip" sd.hostIp).1 ++
        [("net.host.port", .int sd.hostPort)] ++
        (ipAttr "net.peer.ip" sd.peerIp).1 ++
        [("net.peer.port", .int sd.peerPort),
         ("messaging.solace.broker_receive_time_unix_nano", .int sd.brokerReceiveTimeUnixNano),
         ("messaging.solace.dropped_application_message_properties", .bool sd.droppedApplicationMessageProperties)] ++
        (mapUserProperties sd.userProperties).1 := rfl

lemma pair_not_mem_optStrAttr (k key : String) (x : AttrValue) (v : Option String)
    (h : key ≠ k) : (key, x) ∉ optStrAttr k v := by
  cases v <;> simp [optStrAttr, h]

lemma pair_not_mem_optIntAttr (k key : String) (x : AttrValue) (v : Option Int)
    (h : key ≠ k) : (key, x) ∉ optIntAttr k v := by
  cases v <;> simp [optIntAttr, h]

lemma pair_not_mem_rgmidAttrs (key : String) (x : AttrValue) (bs : List Nat)
    (h : key ≠ "messaging.solace.replication_group_message_id") :
    (key, x) ∉ rgmidAttrs bs := by
  unfold rgmidAttrs
  split <;> simp [h]

lemma pair_not_mem_ipAttr (k key : String) (x : AttrValue) (bs : List Nat)
    (h : key ≠ k) : (key, x) ∉ (ipAttr k bs).1 := by
  unfold ipAttr
  split <;> [skip; split] <;> simp [h]

lemma pair_not_mem_mapUserProperties (ps : List (String × Option UserPropertyValue))
    (key : String) (x : AttrValue) (h : key.length < 33) :
    (key, x) ∉ (mapUserProperties ps).1 := by
  intro hm
  exact mapUserProperties_keys ps key h (List.mem_map.mpr ⟨(key, x), hm, rfl⟩)

/-! The claim theorems. -/

/-- C2: the fingerprint encoder maps a 17-byte input with version byte 1 to
`rmid1:` plus the 32 lowercase hex digits of bytes 1..16 in dash-separated
groups of 5, 11, 8 and 8 digits with no error increment; any other non-empty
input maps to the plain lowercase hex dump of the whole input with exactly
one increment; an empty (nil) input maps to the empty string with zero
increments. -/
theorem rgmid_encoding_spec (bs : List Nat) :
    (bs.length = 17 ∧ bs.headD 0 = 1 →
      ∃ g1 g2 g3 g4 : List Char,
        rgmidToString bs =
          ("rmid1:" ++ String.mk g1 ++ "-" ++ String.mk g2 ++ "-" ++ String.mk g3 ++
            "-" ++ String.mk g4, 0) ∧
        g1.length = 5 ∧ g2.length = 11 ∧ g3.length = 8 ∧ g4.length = 8 ∧
        String.mk (g1 ++ g2 ++ g3 ++ g4) = hexStr (bs.drop 1)) ∧
    (bs ≠ [] ∧ ¬(bs.length = 17 ∧ bs.headD 0 = 1) →
      rgmidToString bs = (hexStr bs, 1)) ∧
    (bs = [] → rgmidToString bs = ("", 0)) := by
  refine ⟨?_, ?_, ?_⟩
  · rintro ⟨hl, hh⟩
    have hh' : bs.head?.getD 0 = 1 := by simpa using hh
    have hlen : (hexChars (bs.drop 1)).length = 32 := by
      rw [hexChars_length]; simp [hl]
    have hlen' : (hexChars bs.tail).length = 32 := by
      rw [← List.drop_one]; exact hlen
    refine ⟨(hexChars (bs.drop 1)).take 5, ((hexChars (bs.drop 1)).drop 5).take 11,
      (((hexChars (bs.drop 1)).drop 5).drop 11).take 8,
      (((hexChars (bs.drop 1)).drop 5).drop 11).drop 8, ?_, ?_, ?_, ?_, ?_, ?_⟩
    · simp [rgmidToString, hl, hh']
    · simp [List.length_take, List.drop_one, hlen']
    · simp [List.length_take, List.length_drop, List.drop_one, hlen']
    · simp [List.length_take, List.length_drop, List.drop_one, hlen']
    · simp [List.length_drop, List.drop_one, hlen']
    · unfold hexStr
      congr 1
      rw [List.append_assoc, List.append_assoc, List.take_append_drop,
        List.take_append_drop, List.take_append_drop]
  · rintro ⟨hne, hnv⟩
    unfold rgmidToString
    rw [if_neg hnv, if_pos (List.length_pos.mpr hne)]
  · rintro rfl
    rfl

/-- C3: a raw delivery mode, transaction type or transaction initiator
outside the known set maps to the exact literal `"Unknown Delivery Mode (N)"`
/ `"Unknown Transaction Event (N)"` / `"Unknown Transaction Initiator (N)"`
with exactly one recoverable-error increment per unrecognized field; the
increments add up independently with the other error sources of the same
message, and the span attributes and the transaction event are still
produced. -/
theorem unknown_enum_spec (n : Nat) (sd : SpanData) (te : TransactionEvent) :
    (3 ≤ n → deliveryModeToString n = ("Unknown Delivery Mode (" ++ toString n ++ ")", 1)) ∧
    (6 ≤ n → transactionTypeToString n = ("Unknown Transaction Event (" ++ toString n ++ ")", 1)) ∧
    (3 ≤ n → initiatorToString n = ("Unknown Transaction Initiator (" ++ toString n ++ ")", 1)) ∧
    ("messaging.solace.delivery_mode", .str (deliveryModeToString sd.deliveryMode).1) ∈
      (mapClientSpanAttributes sd).1 ∧
    (mapClientSpanAttributes sd).2 =
      (deliveryModeToString sd.deliveryMode).2 +
        (rgmidToString sd.replicationGroupMessageId).2 +
        (ipAttr "net.host.ip" sd.hostIp).2 + (ipAttr "net.peer.ip" sd.peerIp).2 +
        (mapUserProperties sd.userProperties).2 ∧
    (mapTransactionEvent te).2 =
      (transactionTypeToString te.txnType).2 + (initiatorToString te.initiator).2 +
        (transactionIdAttrs te.transactionId).2 ∧
    (mapTransactionEvent te).1.name = (transactionTypeToString te.txnType).1 ∧
    ("messaging.solace.transaction_initiator", .str (initiatorToString te.initiator).1) ∈
      (mapTransactionEvent te).1.attributes ∧
    (sd.transactionEvent = some te →
      (mapEvents sd).1 = (mapEnqueueEvents sd.enqueueEvents).1 ++ [(mapTransactionEvent te).1]) := by
  refine ⟨?_, ?_, ?_, ?_, rfl, rfl, rfl, ?_, ?_⟩
  · intro h
    obtain ⟨k, rfl⟩ : ∃ k, n = k + 3 := ⟨n - 3, by omega⟩
    rfl
  · intro h
    obtain ⟨k, rfl⟩ : ∃ k, n = k + 6 := ⟨n - 6, by omega⟩
    rfl
  · intro h
    obtain ⟨k, rfl⟩ : ∃ k, n = k + 3 := ⟨n - 3, by omega⟩
    rfl
  · simp [mapClientSpanAttributes_fst]
  · simp [mapTransactionEvent]
  · intro h
    simp [mapEvents, h]

/-- C4: a host-IP or peer-IP field of raw byte length exactly 4 yields the
IPv4 dotted-decimal attribute, length exactly 16 yields the zero-run
compressed colon-hex IPv6 attribute, and any other length (including
zero/absent) omits the attribute with exactly one recoverable-error
increment per such field, the two fields counting additively into the
message's total. -/
theorem network_address_spec (sd : SpanData) :
    (sd.hostIp.length = 4 →
      ("net.host.ip", .str (ipv4ToString sd.hostIp)) ∈ (mapClientSpanAttributes sd).1 ∧
        (ipAttr "net.host.ip" sd.hostIp).2 = 0) ∧
    (sd.hostIp.length = 16 →
      ("net.host.ip", .str (ipv6ToString sd.hostIp)) ∈ (mapClientSpanAttributes sd).1 ∧
        (ipAttr "net.host.ip" sd.hostIp).2 = 0) ∧
    (sd.hostIp.length ≠ 4 ∧ sd.hostIp.length ≠ 16 →
      "net.host.ip" ∉ (mapClientSpanAttributes sd).1.map Prod.fst ∧
        (ipAttr "net.host.ip" sd.hostIp).2 = 1) ∧
    (sd.peerIp.length = 4 →
      ("net.peer.ip", .str (ipv4ToString sd.peerIp)) ∈ (mapClientSpanAttributes sd).1 ∧
        (ipAttr "net.peer.ip" sd.peerIp).2 = 0) ∧
    (sd.peerIp.length = 16 →
      ("net.peer.ip", .str (ipv6ToString sd.peerIp)) ∈ (mapClientSpanAttributes sd).1 ∧
        (ipAttr "net.peer.ip" sd.peerIp).2 = 0) ∧
    (sd.peerIp.length ≠ 4 ∧ sd.peerIp.length ≠ 16 →
      "net.peer.ip" ∉ (mapClientSpanAttributes sd).1.map Prod.fst ∧
        (ipAttr "net.peer.ip" sd.peerIp).2 = 1) ∧
    (mapClientSpanAttributes sd).2 =
      (deliveryModeToString sd.deliveryMode).2 +
        (rgmidToString sd.replicationGroupMessageId).2 +
        (ipAttr "net.host.ip" sd.hostIp).2 + (ipAttr "net.peer.ip" sd.peerIp).2 +
        (mapUserProperties sd.userProperties).2 := by
  refine ⟨?_, ?_, ?_, ?_, ?_, ?_, rfl⟩
  · intro h
    exact ⟨by simp [mapClientSpanAttributes_fst, ipAttr, h], by simp [ipAttr, h]⟩
  · intro h
    have h4 : sd.hostIp.length ≠ 4 := by omega
    exact ⟨by simp [mapClientSpanAttributes_fst, ipAttr, h, h4], by simp [ipAttr, h, h4]⟩
  · rintro ⟨h4, h16⟩
    refine ⟨?_, by simp [ipAttr, h4, h16]⟩
    have hup := fun x => pair_not_mem_mapUserProperties sd.userProperties "net.host.ip" x (by decide)
    simp [mapClientSpanAttributes_fst, ipAttr_invalid _ _ h4 h16,
      pair_not_mem_optStrAttr, pair_not_mem_optIntAttr, pair_not_mem_rgmidAttrs,
      pair_not_mem_ipAttr, hup]
  · intro h
    exact ⟨by simp [mapClientSpanAttributes_fst, ipAttr, h], by simp [ipAttr, h]⟩
  · intro h
    have h4 : sd.peerIp.length ≠ 4 := by omega
    exact ⟨by simp [mapClientSpanAttributes_fst, ipAttr, h, h4], by simp [ipAttr, h, h4]⟩
  · rintro ⟨h4, h16⟩
    refine ⟨?_, by simp [ipAttr, h4, h16]⟩
    have hup := fun x => pair_not_mem_mapUserProperties sd.userProperties "net.peer.ip" x (by decide)
    simp [mapClientSpanAttributes_fst, ipAttr_invalid _ _ h4 h16,
      pair_not_mem_optStrAttr, pair_not_mem_optIntAttr, pair_not_mem_rgmidAttrs,
      pair_not_mem_ipAttr, hup]

/-- C5: a local transaction identifier yields the numeric transaction id,
session name and session id attributes with no id-missing error; a global
(XA) identifier yields the single string attribute `<format id as 8
zero-padded hex digits>-<branch qualifier hex>-<global id hex>` where an
absent byte field leaves its hex segment empty (format id 123 with nil
branch/global gives `"0000007b--"`), again with no id-missing error; an
entirely absent identifier adds no id attributes and increments the
recoverable-error counter by one, additively with any type/initiator
mapping error. -/
theorem transaction_id_spec (te : TransactionEvent) (l : LocalTransactionId) (x : Xid) :
    (te.transactionId = some (.localId l) →
      transactionIdAttrs te.transactionId =
        ([("messaging.solace.transaction_id", .int l.transactionId),
          ("messaging.solace.transacted_session_name", .str l.sessionName),
          ("messaging.solace.transacted_session_id", .int l.sessionId)], 0)) ∧
    (te.transactionId = some (.xid x) →
      transactionIdAttrs te.transactionId =
        ([("messaging.solace.transaction_xid",
            .str (natHexPad x.formatId 8 ++ "-" ++ hexStr (x.branchQualifier.getD []) ++
              "-" ++ hexStr (x.globalId.getD [])))], 0)) ∧
    (te.transactionId = none → transactionIdAttrs te.transactionId = ([], 1)) ∧
    (mapTransactionEvent te).2 =
      (transactionTypeToString te.txnType).2 + (initiatorToString te.initiator).2 +
        (transactionIdAttrs te.transactionId).2 ∧
    (mapTransactionEvent te).1.attributes =
      [("messaging.solace.transaction_initiator", .str (initiatorToString te.initiator).1)] ++
        (transactionIdAttrs te.transactionId).1 ++
        optStrAttr "messaging.solace.transaction_error_message" te.errorDescription ∧
    xidToString { formatId := 123, branchQualifier := none, globalId := none } = "0000007b--" := by
  refine ⟨?_, ?_, ?_, rfl, rfl, by decide⟩
  · intro h
    rw [h]
    rfl
  · intro h
    rw [h]
    rfl
  · intro h
    rw [h]
    rfl

/-- C6 (amended): each user property's tagged value is dispatched to an
attribute of matching type under
`messaging.solace.user_properties.<name>`: all signed and unsigned integer
widths become a 64-bit signed integer attribute (the unsigned 64-bit width
by reinterpretation), a 32-bit float becomes a double attribute through the
exact binary32-to-binary64 widening, a code-point value becomes its UTF-8
string rendering, and a null-variant value becomes an empty-typed attribute,
all with no error; a value of an unrecognized tagged variant writes no
attribute and increments the recoverable-error counter by exactly one; a
map value that is not a valid union at all (nil) is skipped with no
attribute and, unlike the original claim, no counter increment. -/
theorem user_property_spec (key : String) (b : Bool) (bits : Nat) (i : Int) (n : Nat)
    (bs : List Nat) (s : String) (c : Nat)
    (rest : List (String × Option UserPropertyValue)) :
    insertUserProperty key (.boolValue b) =
      ([("messaging.solace.user_properties." ++ key, .bool b)], 0) ∧
    insertUserProperty key (.int8Value i) =
      ([("messaging.solace.user_properties." ++ key, .int i)], 0) ∧
    insertUserProperty key (.int16Value i) =
      ([("messaging.solace.user_properties." ++ key, .int i)], 0) ∧
    insertUserProperty key (.int32Value i) =
      ([("messaging.solace.user_properties." ++ key, .int i)], 0) ∧
    insertUserProperty key (.int64Value i) =
      ([("messaging.solace.user_properties." ++ key, .int i)], 0) ∧
    insertUserProperty key (.uint8Value n) =
      ([("messaging.solace.user_properties." ++ key, .int (n : Int))], 0) ∧
    insertUserProperty key (.uint16Value n) =
      ([("messaging.solace.user_properties." ++ key, .int (n : Int))], 0) ∧
    insertUserProperty key (.uint32Value n) =
      ([("messaging.solace.user_properties." ++ key, .int (n : Int))], 0) ∧
    insertUserProperty key (.uint64Value n) =
      ([("messaging.solace.user_properties." ++ key, .int (uint64ToInt64 n))], 0) ∧
    insertUserProperty key (.doubleValue bits) =
      ([("messaging.solace.user_properties." ++ key, .double bits)], 0) ∧
    insertUserProperty key (.floatValue bits) =
      ([("messaging.solace.user_properties." ++ key, .double (f32ToF64Bits bits))], 0) ∧
    insertUserProperty key (.byteArrayValue bs) =
      ([("messaging.solace.user_properties." ++ key, .bytes bs)], 0) ∧
    insertUserProperty key (.stringValue s) =
      ([("messaging.solace.user_properties." ++ key, .str s)], 0) ∧
    insertUserProperty key (.destinationValue s) =
      ([("messaging.solace.user_properties." ++ key, .str s)], 0) ∧
    insertUserProperty key (.characterValue c) =
      ([("messaging.solace.user_properties." ++ key, .str (runeToString c))], 0) ∧
    insertUserProperty key .nullValue =
      ([("messaging.solace.user_properties." ++ key, .empty)], 0) ∧
    insertUserProperty key .unsupported = ([], 1) ∧
    mapUserProperties ((key, none) :: rest) = mapUserProperties rest :=
  ⟨rfl, rfl, rfl, rfl, rfl, rfl, rfl, rfl, rfl, rfl, rfl, rfl, rfl, rfl, rfl, rfl, rfl, rfl⟩

/-- C6 counterexample: the original claim says a user-property map value
that is not a valid union (a nil map value) increments the recoverable-error
counter by exactly one; on the modelled code (pinned by the staged test
"With Some Invalid Fields", which expects exactly the 3 errors of its other
fields while holding a nil `special_key`) such an entry is skipped with zero
increments, both at the property mapper and in the whole attribute
mapper. -/
theorem user_property_nil_counterexample :
    mapUserProperties [("special_key", (none : Option UserPropertyValue))] = ([], 0) ∧
    (mapUserProperties [("special_key", (none : Option UserPropertyValue))]).2 ≠ 1 ∧
    (mapClientSpanAttributes
      { emptySpanData with
          hostIp := [1, 2, 3, 4], peerIp := [1, 2, 3, 4],
          userProperties := [("special_key", none)] }).2 = 0 := by
  refine ⟨rfl, by decide, rfl⟩

/-- C7: the produced span carries the record's trace id, span id and
start/end timestamps, has kind fixed to consumer and name fixed to
`"(topic) receive"`; its parent span id is set only when present in the
record, the trace-state string is attached verbatim when present, and the
status is error with the record's error-description message exactly when
that field is present (non-empty), otherwise unset. -/
theorem span_envelope_spec (sd : SpanData) :
    (mapTraces sd).span.traceId = sd.traceId ∧
    (mapTraces sd).span.spanId = sd.spanId ∧
    (mapTraces sd).span.startTimeUnixNano = sd.startTimeUnixNano ∧
    (mapTraces sd).span.endTimeUnixNano = sd.endTimeUnixNano ∧
    (mapTraces sd).span.kind = spanKindConsumer ∧
    (mapTraces sd).span.name = "(topic) receive" ∧
    (sd.parentSpanId = [] → (mapTraces sd).span.parentSpanId = none) ∧
    (sd.parentSpanId ≠ [] → (mapTraces sd).span.parentSpanId = some sd.parentSpanId) ∧
    (mapTraces sd).span.traceState = sd.traceState ∧
    (sd.errorDescription = "" → (mapTraces sd).span.status = .unset) ∧
    (sd.errorDescription ≠ "" → (mapTraces sd).span.status = .error sd.errorDescription) := by
  refine ⟨rfl, rfl, rfl, rfl, rfl, rfl, ?_, ?_, rfl, ?_, ?_⟩
  · intro h
    simp [mapTraces, mapClientSpanData, h]
  · intro h
    simp [mapTraces, mapClientSpanData, h]
  · intro h
    simp [mapTraces, mapClientSpanData, h]
  · intro h
    simp [mapTraces, mapClientSpanData, h]

lemma mapEnqueueEvents_length (es : List EnqueueEvent) :
    (mapEnqueueEvents es).1.length = es.countP (fun ev => ev.dest.isSome) := by
  induction es with
  | nil => rfl
  | cons e rest ih =>
      cases h : e.dest with
      | none => simp [mapEnqueueEvents, mapEnqueueEvent, h, List.countP_cons, ih]
      | some d => cases d <;> simp [mapEnqueueEvents, mapEnqueueEvent, h, List.countP_cons, ih]

lemma mapEnqueueEvents_errs (es : List EnqueueEvent) :
    (mapEnqueueEvents es).2 = es.countP (fun ev => ev.dest.isNone) := by
  induction es with
  | nil => rfl
  | cons e rest ih =>
      cases h : e.dest with
      | none =>
          simp [mapEnqueueEvents, mapEnqueueEvent, h, List.countP_cons, ih]
          omega
      | some d => cases d <;> simp [mapEnqueueEvents, mapEnqueueEvent, h, List.countP_cons, ih]

/-- C8: an enqueue sub-event carrying a destination variant produces exactly
one span event named `"<destination> enqueue"` at the event's timestamp,
with the destination-type attribute (`"queue"` or `"topic-endpoint"`), the
rejects-all-enqueues boolean attribute, and an enqueue-error-message
attribute only when an error description is present; an enqueue sub-event
with no destination variant produces no event and increments the
recoverable-error counter by exactly one; over a whole record the produced
events and increments are counted per sub-event. -/
theorem enqueue_event_spec (e : EnqueueEvent) (q tn : String) (sd : SpanData) :
    (e.dest = some (.queueName q) →
      mapEnqueueEvent e =
        (some { name := q ++ " enqueue"
                timeUnixNano := e.timeUnixNano
                attributes :=
                  [("messaging.solace.destination_type", .str "queue"),
                   ("messaging.solace.rejects_all_enqueues", .bool e.rejectsAllEnqueues)] ++
                    optStrAttr "messaging.solace.enqueue_error_message" e.errorDescription },
         0)) ∧
    (e.dest = some (.topicEndpointName tn) →
      mapEnqueueEvent e =
        (some { name := tn ++ " enqueue"
                timeUnixNano := e.timeUnixNano
                attributes :=
                  [("messaging.solace.destination_type", .str "topic-endpoint"),
                   ("messaging.solace.rejects_all_enqueues", .bool e.rejectsAllEnqueues)] ++
                    optStrAttr "messaging.solace.enqueue_error_message" e.errorDescription },
         0)) ∧
    (e.dest = none → mapEnqueueEvent e = (none, 1)) ∧
    (mapEnqueueEvents sd.enqueueEvents).1.length =
      sd.enqueueEvents.countP (fun ev => ev.dest.isSome) ∧
    (mapEnqueueEvents sd.enqueueEvents).2 =
      sd.enqueueEvents.countP (fun ev => ev.dest.isNone) := by
  refine ⟨?_, ?_, ?_, mapEnqueueEvents_length _, mapEnqueueEvents_errs _⟩ <;>
    · intro h
      simp [mapEnqueueEvent, h]

lemma optStrAttr_none (k : String) : optStrAttr k none = [] := rfl

lemma optIntAttr_none (k : String) : optIntAttr k none = [] := rfl

/-- C9: optional wire-record fields (VPN/tenant name, protocol version,
message id, correlation id, reply-to, priority, time-to-live) produce their
attribute only when present — an absent field omits the key entirely and
never produces an error — while `service.name` and `service.version` are
always set (even to empty strings), and the payload-size attribute always
equals the sum of the three size fields. -/
theorem optional_field_spec (sd : SpanData) :
    ("service.name", .str sd.routerName) ∈ mapResourceSpanAttributes sd ∧
    ("service.version", .str sd.solosVersion) ∈ mapResourceSpanAttributes sd ∧
    (∀ v, sd.messageVpnName = some v →
      ("service.instance.id", .str v) ∈ mapResourceSpanAttributes sd) ∧
    (sd.messageVpnName = none →
      "service.instance.id" ∉ (mapResourceSpanAttributes sd).map Prod.fst) ∧
    (∀ v, sd.protocolVersion = some v →
      ("messaging.protocol_version", .str v) ∈ (mapClientSpanAttributes sd).1) ∧
    (sd.protocolVersion = none →
      "messaging.protocol_version" ∉ (mapClientSpanAttributes sd).1.map Prod.fst) ∧
    (∀ v, sd.applicationMessageId = some v →
      ("messaging.message_id", .str v) ∈ (mapClientSpanAttributes sd).1) ∧
    (sd.applicationMessageId = none →
      "messaging.message_id" ∉ (mapClientSpanAttributes sd).1.map Prod.fst) ∧
    (∀ v, sd.correlationId = some v →
      ("messaging.conversation_id", .str v) ∈ (mapClientSpanAttributes sd).1) ∧
    (sd.correlationId = none →
      "messaging.conversation_id" ∉ (mapClientSpanAttributes sd).1.map Prod.fst) ∧
    (∀ v, sd.replyToTopic = some v →
      ("messaging.solace.reply_to_topic", .str v) ∈ (mapClientSpanAttributes sd).1) ∧
    (sd.replyToTopic = none →
      "messaging.solace.reply_to_topic" ∉ (mapClientSpanAttributes sd).1.map Prod.fst) ∧
    (∀ p, sd.priority = some p →
      ("messaging.solace.priority", .int (p : Int)) ∈ (mapClientSpanAttributes sd).1) ∧
    (sd.priority = none →
      "messaging.solace.priority" ∉ (mapClientSpanAttributes sd).1.map Prod.fst) ∧
    (∀ t, sd.ttl = some t →
      ("messaging.solace.ttl", .int t) ∈ (mapClientSpanAttributes sd).1) ∧
    (sd.ttl = none →
      "messaging.solace.ttl" ∉ (mapClientSpanAttributes sd).1.map Prod.fst) ∧
    ("messaging.message_payload_size_bytes",
      .int ((sd.binaryAttachmentSize + sd.xmlAttachmentSize + sd.metadataSize : Nat) : Int)) ∈
      (mapClientSpanAttributes sd).1 ∧
    (mapClientSpanAttributes
      { sd with protocolVersion := none, applicationMessageId := none,
                correlationId := none, replyToTopic := none,
                priority := none, ttl := none }).2 = (mapClientSpanAttributes sd).2 := by
  refine ⟨by simp [mapResourceSpanAttributes], by simp [mapResourceSpanAttributes],
    ?_, ?_, ?_, ?_, ?_, ?_, ?_, ?_, ?_, ?_, ?_, ?_, ?_, ?_,
    by simp [mapClientSpanAttributes_fst], rfl⟩
  · intro v h
    simp [mapResourceSpanAttributes, h, optStrAttr]
  · intro h
    simp [mapResourceSpanAttributes, h, optStrAttr]
  · intro v h
    simp [mapClientSpanAttributes_fst, h, optStrAttr]
  · intro h
    have hup := fun x => pair_not_mem_mapUserProperties sd.userProperties
      "messaging.protocol_version" x (by decide)
    simp [mapClientSpanAttributes_fst, h, optStrAttr_none, optIntAttr_none,
      pair_not_mem_optStrAttr, pair_not_mem_optIntAttr, pair_not_mem_rgmidAttrs,
      pair_not_mem_ipAttr, hup]
  · intro v h
    simp [mapClientSpanAttributes_fst, h, optStrAttr]
  · intro h
    have hup := fun x => pair_not_mem_mapUserProperties sd.userProperties
      "messaging.message_id" x (by decide)
    simp [mapClientSpanAttributes_fst, h, optStrAttr_none, optIntAttr_none,
      pair_not_mem_optStrAttr, pair_not_mem_optIntAttr, pair_not_mem_rgmidAttrs,
      pair_not_mem_ipAttr, hup]
  · intro v h
    simp [mapClientSpanAttributes_fst, h, optStrAttr]
  · intro h
    have hup := fun x => pair_not_mem_mapUserProperties sd.userProperties
      "messaging.conversation_id" x (by decide)
    simp [mapClientSpanAttributes_fst, h, optStrAttr_none, optIntAttr_none,
      pair_not_mem_optStrAttr, pair_not_mem_optIntAttr, pair_not_mem_rgmidAttrs,
      pair_not_mem_ipAttr, hup]
  · intro v h
    simp [mapClientSpanAttributes_fst, h, optStrAttr]
  · intro h
    have hup := fun x => pair_not_mem_mapUserProperties sd.userProperties
      "messaging.solace.reply_to_topic" x (by decide)
    simp [mapClientSpanAttributes_fst, h, optStrAttr_none, optIntAttr_none,
      pair_not_mem_optStrAttr, pair_not_mem_optIntAttr, pair_not_mem_rgmidAttrs,
      pair_not_mem_ipAttr, hup]
  · intro p h
    simp [mapClientSpanAttributes_fst, h, optIntAttr]
  · intro h
    have hup := fun x => pair_not_mem_mapUserProperties sd.userProperties
      "messaging.solace.priority" x (by decide)
    simp [mapClientSpanAttributes_fst, h, optStrAttr_none, optIntAttr_none,
      pair_not_mem_optStrAttr, pair_not_mem_optIntAttr, pair_not_mem_rgmidAttrs,
      pair_not_mem_ipAttr, hup]
  · intro t h
    simp [mapClientSpanAttributes_fst, h, optIntAttr]
  · intro h
    have hup := fun x => pair_not_mem_mapUserProperties sd.userProperties
      "messaging.solace.ttl" x (by decide)
    simp [mapClientSpanAttributes_fst, h, optStrAttr_none, optIntAttr_none,
      pair_not_mem_optStrAttr, pair_not_mem_optIntAttr, pair_not_mem_rgmidAttrs,
      pair_not_mem_ipAttr, hup]

/-- C10: a character (code-point) user property whose numeric value is not a
valid Unicode scalar value (such as 0xE68080 or 0xF09F92A9, both above
U+10FFFF) produces the single Unicode replacement character U+FFFD as its
string attribute with no error counted, while a valid scalar value (such as
0x61) renders as that character's UTF-8 string. -/
theorem character_property_spec (key : String) (n : Nat) :
    (isUnicodeScalar n = false →
      insertUserProperty key (.characterValue n) =
        ([("messaging.solace.user_properties." ++ key,
           .str (String.singleton (Char.ofNat 0xFFFD)))], 0)) ∧
    (isUnicodeScalar n = true →
      insertUserProperty key (.characterValue n) =
        ([("messaging.solace.user_properties." ++ key,
           .str (String.singleton (Char.ofNat n)))], 0)) ∧
    isUnicodeScalar 0xE68080 = false ∧
    isUnicodeScalar 0xF09F92A9 = false ∧
    runeToString 0xE68080 = String.singleton (Char.ofNat 0xFFFD) ∧
    runeToString 0xF09F92A9 = String.singleton (Char.ofNat 0xFFFD) ∧
    runeToString 0x61 = "a" := by
  refine ⟨?_, ?_, by decide, by decide, by decide, by decide, by decide⟩
  · intro h
    simp [insertUserProperty, runeToString, h]
  · intro h
    simp [insertUserProperty, runeToString, h]

set_option maxRecDepth 8192

/-- C1: the unmarshal entry point fails fatally, producing no trace output,
exactly in these cases: missing routing metadata, missing destination path,
or a path off the fixed telemetry base give the typed unknown-message-type
error; a path on the base with an unrecognized version suffix gives the
typed unknown-message-version error; a body with zero bytes total across
all chunks gives the typed empty-payload error; body bytes the decoder
rejects give a decode-failure error wrapping the parse error.  An error
result carries no trace data. -/
theorem unmarshal_fatal_spec (decode : List Nat → Except String SpanData)
    (props : Option MessageProperties) (d : List (List Nat)) :
    (unmarshal decode ⟨props, d⟩ = .error .unknownTraceMessageType ↔
      props.bind MessageProperties.toAddr = none ∨
        (∃ t, props.bind MessageProperties.toAddr = some t ∧
          hasTelemetryBase t = false)) ∧
    (unmarshal decode ⟨props, d⟩ = .error .unknownTraceMessageVersion ↔
      ∃ t, props.bind MessageProperties.toAddr = some t ∧
        hasTelemetryBase t = true ∧ t ≠ telemetryTopicV1) ∧
    (unmarshal decode ⟨props, d⟩ = .error .emptyPayload ↔
      props.bind MessageProperties.toAddr = some telemetryTopicV1 ∧ d.flatten = []) ∧
    (∀ e, unmarshal decode ⟨props, d⟩ = .error (.decodeFailure e) ↔
      props.bind MessageProperties.toAddr = some telemetryTopicV1 ∧
        d.flatten ≠ [] ∧ decode d.flatten = .error e) ∧
    (∀ err, unmarshal decode ⟨props, d⟩ = .error err →
      ∀ tr, unmarshal decode ⟨props, d⟩ ≠ .ok tr) := by
  have hv : hasTelemetryBase telemetryTopicV1 = true := by decide
  match props with
  | none =>
      refine ⟨by simp [unmarshal], by simp [unmarshal], by simp [unmarshal],
        by simp [unmarshal], ?_⟩
      intro err herr tr
      simp [unmarshal]
  | some ⟨none⟩ =>
      refine ⟨by simp [unmarshal], by simp [unmarshal], by simp [unmarshal],
        by simp [unmarshal], ?_⟩
      intro err herr tr
      simp [unmarshal]
  | some ⟨some t⟩ =>
      by_cases h1 : t = telemetryTopicV1
      · subst h1
        by_cases h2 : d.flatten = []
        · refine ⟨by simp [unmarshal, h2, hv], by simp [unmarshal, h2],
            by simp [unmarshal, h2], by simp [unmarshal, h2], ?_⟩
          intro err herr tr
          simp [unmarshal, h2]
        · cases hd : decode d.flatten with
          | error e =>
              refine ⟨by simp [unmarshal, h2, hd, hv], by simp [unmarshal, h2, hd],
                by simp [unmarshal, h2, hd], by simp [unmarshal, h2, hd], ?_⟩
              intro err herr tr
              simp [unmarshal, h2, hd]
          | ok sd =>
              refine ⟨by simp [unmarshal, h2, hd, hv], by simp [unmarshal, h2, hd],
                by simp [unmarshal, h2, hd], by simp [unmarshal, h2, hd], ?_⟩
              intro err herr tr
              simp [unmarshal, h2, hd] at herr
      · by_cases h3 : hasTelemetryBase t
        · refine ⟨by simp [unmarshal, h1, h3], by simp [unmarshal, h1, h3],
            by simp [unmarshal, h1, h3], by simp [unmarshal, h1, h3], ?_⟩
          intro err herr tr
          simp [unmarshal, h1, h3]
        · refine ⟨by simp [unmarshal, h1, h3], by simp [unmarshal, h1, h3],
            by simp [unmarshal, h1, h3], by simp [unmarshal, h1, h3], ?_⟩
          intro err herr tr
          simp [unmarshal, h1, h3]

/-! Concrete evaluations replicating the staged test vectors of
`src/receiver/solacereceiver/unmarshaller_test.go`. -/

/-- The valid 17-byte fingerprint of `TestUnmarshallerRGMID` encodes to the
documented dash-grouped form with no error. -/
theorem rgmid_test_vector :
    rgmidToString [0x01, 0x00, 0x01, 0x04, 0x09, 0x10, 0x19, 0x24, 0x31, 0x40,
      0x51, 0x64, 0x79, 0x90, 0xa9, 0xc4, 0xe1] =
      ("rmid1:00010-40910192431-40516479-90a9c4e1", 0) := rfl

/-- The bad-version fingerprint of `TestUnmarshallerRGMID` falls back to the
hex dump with one error. -/
theorem rgmid_bad_version_test_vector :
    rgmidToString [0x02, 0x00, 0x01, 0x04, 0x09, 0x10, 0x19, 0x24, 0x31, 0x40,
      0x51, 0x64, 0x79, 0x90, 0xa9, 0xc4, 0xe1] =
      ("0200010409101924314051647990a9c4e1", 1) := rfl

/-- The 16-byte peer address of the staged tests renders in the compressed
IPv6 form. -/
theorem ipv6_test_vector :
    ipv6ToString [35, 69, 4, 37, 44, 161, 0, 0, 0, 0, 5, 103, 86, 115, 35, 181] =
      "2345:425:2ca1::567:5673:23b5" := rfl

/-- The 4-byte host address of the staged tests renders in dotted form. -/
theorem ipv4_test_vector : ipv4ToString [1, 2, 3, 4] = "1.2.3.4" := rfl

/-- The unknown delivery mode 1000 of test case "With Some Invalid Fields"
maps to the documented literal with one error. -/
theorem delivery_mode_test_vector :
    deliveryModeToString 1000 = ("Unknown Delivery Mode (1000)", 1) := rfl

/-- Test case "With Some Invalid Fields": an unknown delivery mode, two
absent network addresses and a nil user-property value give exactly 3
recoverable errors in total. -/
theorem invalid_fields_errors_test_vector :
    (mapClientSpanAttributes
      { emptySpanData with
          deliveryMode := 1000,
          userProperties := [("special_key", none)] }).2 = 3 := rfl

/-- The XA identifier of `TestUnmarshallerEvents` encodes to the documented
string. -/
theorem xid_test_vector :
    xidToString { formatId := 123, branchQualifier := some [0, 8, 20, 254],
                  globalId := some [128, 64, 32, 16, 8, 4, 2, 1, 0] } =
      "0000007b-000814fe-804020100804020100" := rfl

/-- The routing cases of `TestSolaceMessageUnmarshallerUnmarshal` on the
modelled entry point. -/
theorem unmarshal_test_vectors :
    unmarshal (fun _ => .error "cannot parse invalid wire-format data")
        { properties := some { toAddr := some "some unknown topic string that won't be valid" },
          data := [[1]] } = .error .unknownTraceMessageType ∧
    unmarshal (fun _ => .error "cannot parse invalid wire-format data")
        { properties := some { toAddr := some "_telemetry/broker/trace/receive/v2" },
          data := [[1]] } = .error .unknownTraceMessageVersion ∧
    unmarshal (fun _ => .error "cannot parse invalid wire-format data")
        { properties := none, data := [[1]] } = .error .unknownTraceMessageType ∧
    unmarshal (fun _ => .error "cannot parse invalid wire-format data")
        { properties := some { toAddr := none }, data := [[1]] } =
      .error .unknownTraceMessageType ∧
    unmarshal (fun _ => .error "cannot parse invalid wire-format data")
        { properties := some { toAddr := some "_telemetry/broker/trace/receive/v1" },
          data := [[]] } = .error .emptyPayload ∧
    unmarshal (fun _ => .error "cannot parse invalid wire-format data")
        { properties := some { toAddr := some "_telemetry/broker/trace/receive/v1" },
          data := [[1, 2, 3, 4, 5]] } =
      .error (.decodeFailure "cannot parse invalid wire-format data") :=
  ⟨rfl, rfl, rfl, rfl, rfl, rfl⟩
